import Mathlib

/-!
Verification of the Movie-anime-scraper aggregation engine.

The Python sources (`main.py`, `scrapers/base_scraper.py`, `scrapers/utils.py`,
`scrapers/anime_scrapers.py`, `scrapers/movie_scrapers.py`) are shallowly
embedded below.  Pure functions become Lean functions; the network is made
explicit: every fetch result that the code would obtain over HTTP appears as a
parameter of the embedded function (an `Option`/`Except`/list value standing
for the parsed response).  Python exceptions become `Except`/`Option` values;
`try/except` blocks become matches on those values.
-/

namespace Scraper

/-- Python's substring test `pat in s`, restricted to a prefix check:
`listPrefixOf p l` is true iff `p` is a prefix of `l`. -/
def listPrefixOf : List Char → List Char → Bool
  | [], _ => true
  | _ :: _, [] => false
  | a :: as, b :: bs => a == b && listPrefixOf as bs

/-- `listStrInfix p l` is true iff `p` occurs contiguously inside `l`. -/
def listStrInfix (pat : List Char) : List Char → Bool
  | [] => listPrefixOf pat []
  | c :: cs => listPrefixOf pat (c :: cs) || listStrInfix pat cs

/-- Python's `pat in s` on strings (substring containment). -/
def pyIn (pat s : String) : Bool := listStrInfix pat.data s.data

/-- ASCII lower-casing of one character (model of Python `str.lower` on the
ASCII inputs the program handles). -/
def charLower (c : Char) : Char :=
  if 'A' ≤ c ∧ c ≤ 'Z' then Char.ofNat (c.toNat + 32) else c

/-- Model of Python `str.lower`. -/
def strLower (s : String) : String := ⟨s.data.map charLower⟩

/-- Python truthiness of an `int`: `a or b` returns `a` when `a ≠ 0`. -/
def pyOrNat (a b : Nat) : Nat := if a ≠ 0 then a else b

/-! ## Data model — `scrapers/base_scraper.py` -/

/-- `VideoQuality` enum (`base_scraper.py`, lines 13-20). -/
inductive VideoQuality where
  | sd_360p
  | sd_480p
  | hd_720p
  | hd_1080p
  | fhd_1440p
  | uhd_4k
  | unknown
deriving DecidableEq

/-- The `.value` string of each `VideoQuality` member. -/
def VideoQuality.value : VideoQuality → String
  | .sd_360p => "360p"
  | .sd_480p => "480p"
  | .hd_720p => "720p"
  | .hd_1080p => "1080p"
  | .fhd_1440p => "1440p"
  | .uhd_4k => "4k"
  | .unknown => "unknown"

/-- `SourceType` enum (`base_scraper.py`, lines 22-34). -/
inductive SourceType where
  | direct
  | hls
  | dash
  | iframe
  | streamtape
  | doodstream
  | mixdrop
  | upstream
  | vidcloud
  | mp4upload
  | filemoon
  | embed
deriving DecidableEq

/-- The `.value` string of each `SourceType` member. -/
def SourceType.value : SourceType → String
  | .direct => "direct"
  | .hls => "hls"
  | .dash => "dash"
  | .iframe => "iframe"
  | .streamtape => "streamtape"
  | .doodstream => "doodstream"
  | .mixdrop => "mixdrop"
  | .upstream => "upstream"
  | .vidcloud => "vidcloud"
  | .mp4upload => "mp4upload"
  | .filemoon => "filemoon"
  | .embed => "embed"

/-- `VideoSource` dataclass (`base_scraper.py`, lines 36-47).  Python dicts of
strings are embedded as association lists. -/
structure VideoSource where
  url : String
  type : SourceType
  quality : VideoQuality := .unknown
  language : String := "en"
  is_m3u8 : Bool := false
  headers : List (String × String) := []
  subtitles : List (List (String × String)) := []
  referer : String := ""
deriving DecidableEq

/-- The dictionary produced by `VideoSource.to_dict`. -/
structure VideoSourceDict where
  url : String
  type : String
  quality : String
  language : String
  is_m3u8 : Bool
  headers : List (String × String)
  subtitles : List (List (String × String))
  referer : String
deriving DecidableEq

/-- `VideoSource.to_dict` (`base_scraper.py`, lines 48-58). -/
def VideoSource.to_dict (s : VideoSource) : VideoSourceDict :=
  { url := s.url
    type := s.type.value
    quality := s.quality.value
    language := s.language
    is_m3u8 := s.is_m3u8
    headers := s.headers
    subtitles := s.subtitles
    referer := s.referer }

/-- `Episode` dataclass (`base_scraper.py`, lines 60-71). -/
structure Episode where
  number : Int
  title : String
  id : String
  sources : List VideoSource := []
  thumbnail : String := ""
  description : String := ""
  duration : String := ""
  release_date : String := ""
  download_links : List (List (String × String)) := []
deriving DecidableEq

/-- The dictionary produced by `Episode.to_dict`. -/
structure EpisodeDict where
  number : Int
  title : String
  id : String
  sources : List VideoSourceDict
  thumbnail : String
  description : String
  duration : String
  release_date : String
  download_links : List (List (String × String))
deriving DecidableEq

/-- `Episode.to_dict` (`base_scraper.py`, lines 73-84). -/
def Episode.to_dict (e : Episode) : EpisodeDict :=
  { number := e.number
    title := e.title
    id := e.id
    sources := e.sources.map VideoSource.to_dict
    thumbnail := e.thumbnail
    description := e.description
    duration := e.duration
    release_date := e.release_date
    download_links := e.download_links }

/-- `Season` dataclass (`base_scraper.py`, lines 86-93). -/
structure Season where
  number : Int
  title : String
  id : String
  episodes : List Episode := []
  episode_count : Nat := 0
deriving DecidableEq

/-- The dictionary produced by `Season.to_dict`. -/
structure SeasonDict where
  number : Int
  title : String
  id : String
  episodes : List EpisodeDict
  episode_count : Nat
deriving DecidableEq

/-- `Season.to_dict` (`base_scraper.py`, lines 95-102).  The Python line
`len(self.episodes) or self.episode_count` is the integer `or`:
`len` when non-zero, else the declared count. -/
def Season.to_dict (s : Season) : SeasonDict :=
  { number := s.number
    title := s.title
    id := s.id
    episodes := s.episodes.map Episode.to_dict
    episode_count := pyOrNat s.episodes.length s.episode_count }

/-- `ScraperResult` dataclass (`base_scraper.py`, lines 104-145), the
aggregate the spec calls `ContentDetails`.  `scraped_at` is the timestamp
string filled by `datetime.now().isoformat()`; it is carried opaquely. -/
structure ScraperResult where
  title : String
  original_title : String := ""
  id : String := ""
  type : String := ""
  description : String := ""
  poster : String := ""
  banner : String := ""
  rating : String := ""
  release_year : String := ""
  genres : List String := []
  status : String := ""
  duration : String := ""
  country : String := ""
  language : String := ""
  episodes : List Episode := []
  episode_count : Nat := 0
  seasons : List Season := []
  season_count : Nat := 0
  sources : List VideoSource := []
  alternative_titles : List String := []
  cast : List String := []
  director : String := ""
  studio : String := ""
  download_links : List (List (String × String)) := []
  source_site : String := ""
  source_url : String := ""
  scraped_at : String := ""
deriving DecidableEq

/-- The dictionary produced by `ScraperResult.to_dict`. -/
structure ScraperResultDict where
  title : String
  original_title : String
  id : String
  type : String
  description : String
  poster : String
  banner : String
  rating : String
  release_year : String
  genres : List String
  status : String
  duration : String
  country : String
  language : String
  episode_count : Nat
  episodes : List EpisodeDict
  season_count : Nat
  seasons : List SeasonDict
  sources : List VideoSourceDict
  alternative_titles : List String
  cast : List String
  director : String
  studio : String
  download_links : List (List (String × String))
  source_site : String
  source_url : String
  scraped_at : String
deriving DecidableEq

/-- `ScraperResult.to_dict` (`base_scraper.py`, lines 147-177).  The Python
conditional `len(self.episodes) if self.episodes else self.episode_count`
tests list truthiness (non-emptiness); likewise for seasons. -/
def ScraperResult.to_dict (r : ScraperResult) : ScraperResultDict :=
  { title := r.title
    original_title := r.original_title
    id := r.id
    type := r.type
    description := r.description
    poster := r.poster
    banner := r.banner
    rating := r.rating
    release_year := r.release_year
    genres := r.genres
    status := r.status
    duration := r.duration
    country := r.country
    language := r.language
    episode_count := if r.episodes ≠ [] then r.episodes.length else r.episode_count
    episodes := r.episodes.map Episode.to_dict
    season_count := if r.seasons ≠ [] then r.seasons.length else r.season_count
    seasons := r.seasons.map Season.to_dict
    sources := r.sources.map VideoSource.to_dict
    alternative_titles := r.alternative_titles
    cast := r.cast
    director := r.director
    studio := r.studio
    download_links := r.download_links
    source_site := r.source_site
    source_url := r.source_url
    scraped_at := r.scraped_at }

/-! ## Fetch resilience — `scrapers/utils.py`

The network is modelled explicitly: a `FetchOutcome` is what one HTTP GET
attempt produced — either an exception (network error / timeout, the Python
`except` path) or a response with a status code and a body. -/

/-- Outcome of a single HTTP GET attempt. -/
inductive FetchOutcome where
  | exc
  | resp (status : Nat) (body : String)
deriving DecidableEq

/-- `fetch_page_sync` (`utils.py`, lines 37-49): returns the body when the
status is exactly 200, `None` on any other status, and `None` when the
request raised (the `except` branch prints and returns `None`). -/
def fetch_page_sync (attempt : FetchOutcome) : Option String :=
  match attempt with
  | .exc => none
  | .resp status body => if status = 200 then some body else none

/-- `fetch_page` (`utils.py`, lines 66-79): the aiohttp attempt returns the
body iff the status is exactly 200 and `None` otherwise; only when the
aiohttp attempt raises does it fall back to `fetch_page_sync` with a fresh
synchronous attempt.  Both attempts appear as explicit parameters. -/
def fetch_page (asyncAttempt syncAttempt : FetchOutcome) : Option String :=
  match asyncAttempt with
  | .resp status body => if status = 200 then some body else none
  | .exc => fetch_page_sync syncAttempt

/-! ## Embed classification — `extract_video_url` (`utils.py`, lines 125-149)

Each regex of the `patterns` dict is a concrete sequence of literals,
`[^/]+` runs and a single `(\w+)` capture; a pattern is embedded as the list
of those tokens.  For these patterns a greedy maximal-munch match is exactly
Python `re.search`: every `[^/]+` is followed by a literal starting with
`/`, and the `(\w+)` capture is the final token. -/

/-- One token of the concrete registry regexes. -/
inductive PatTok where
  | lit (s : String)
  | plusNonSlash
  | plusWord
deriving DecidableEq

/-- Python `\w` on the ASCII inputs at hand: letters, digits, underscore. -/
def isWordChar (c : Char) : Bool := c.isAlphanum || c == '_'

/-- Match a token sequence against the beginning of `cs`, returning the list
of captured `(\w+)` groups (leftover input is allowed, as in `re.search`). -/
def matchToks : List PatTok → List Char → Option (List String)
  | [], _ => some []
  | .lit s :: rest, cs =>
      if listPrefixOf s.data cs then matchToks rest (cs.drop s.data.length)
      else none
  | .plusNonSlash :: rest, cs =>
      let run := cs.takeWhile (fun c => c ≠ '/')
      if run.isEmpty then none else matchToks rest (cs.drop run.length)
  | .plusWord :: rest, cs =>
      let run := cs.takeWhile isWordChar
      if run.isEmpty then none
      else (matchToks rest (cs.drop run.length)).map
        (fun caps => (⟨run⟩ : String) :: caps)

/-- `re.search`: try the pattern at every position, leftmost match wins. -/
def searchPat (p : List PatTok) : List Char → Option (List String)
  | [] => matchToks p []
  | c :: cs =>
      match matchToks p (c :: cs) with
      | some caps => some caps
      | none => searchPat p cs

/-- The ordered `patterns` registry of `extract_video_url`
(`utils.py`, lines 127-138), in source order. -/
def embedPatterns : List (String × List PatTok) :=
  [("streamtape", [.lit "streamtape.com/e/", .plusWord]),
   ("doodstream", [.lit "dood.", .plusNonSlash, .lit "/e/", .plusWord]),
   ("mixdrop", [.lit "mixdrop.", .plusNonSlash, .lit "/e/", .plusWord]),
   ("upstream", [.lit "upstream.to/e/", .plusWord]),
   ("vidcloud", [.lit "vidcloud.", .plusNonSlash, .lit "/e/", .plusWord]),
   ("mp4upload", [.lit "mp4upload.com/embed-", .plusWord]),
   ("yourupload", [.lit "yourupload.com/embed/", .plusWord]),
   ("sbembed", [.lit "sbembed.com/embed/", .plusWord]),
   ("filemoon", [.lit "filemoon.sx/e/", .plusWord]),
   ("voe", [.lit "voe.sx/e/", .plusWord])]

/-- The dict returned by `extract_video_url` on a match. -/
structure EmbedInfo where
  host : String
  video_id : String
  embed_url : String
  direct_url : Option String
deriving DecidableEq

/-- The `for host, pattern in patterns.items()` loop body of
`extract_video_url`: first matching entry wins. -/
def extractFromPatterns : List (String × List PatTok) → String → Option EmbedInfo
  | [], _ => none
  | (host, pat) :: rest, url =>
      match searchPat pat url.data with
      | some caps =>
          some { host := host, video_id := caps.headD "",
                 embed_url := url, direct_url := none }
      | none => extractFromPatterns rest url

/-- `extract_video_url` (`utils.py`, lines 125-149): returns the first
matching classification, or `None` when no registry pattern matches. -/
def extract_video_url (embed_url : String) : Option EmbedInfo :=
  extractFromPatterns embedPatterns embed_url

/-! ## `decode_base64_url` (`utils.py`, lines 151-159)

`base64.b64decode` (with `validate=False`) discards characters outside the
base64 alphabet and `'='`, decodes 4-character quanta to 3 bytes, treats
`'='` as terminating padding (data after complete padding is ignored), and
raises on a quantum Python rejects (a lone trailing character, or data
without enough padding); `.decode('utf-8')` then validates UTF-8.  Both
fallible steps are embedded as `Option`-returning functions; the enclosing
`try/except` maps any failure to the empty string. -/

/-- Value of a standard base64 alphabet character. -/
def b64Val (c : Char) : Option Nat :=
  if 'A' ≤ c ∧ c ≤ 'Z' then some (c.toNat - 65)
  else if 'a' ≤ c ∧ c ≤ 'z' then some (c.toNat - 97 + 26)
  else if '0' ≤ c ∧ c ≤ '9' then some (c.toNat - 48 + 52)
  else if c = '+' then some 62
  else if c = '/' then some 63
  else none

/-- Decode cleaned base64 characters (alphabet members and `'='` only) one
4-character quantum at a time. -/
def b64Group : List Char → Option (List Nat)
  | [] => some []
  | a :: b :: '=' :: '=' :: _ =>
      match b64Val a, b64Val b with
      | some va, some vb => some [va * 4 + vb / 16]
      | _, _ => none
  | a :: b :: c :: '=' :: _ =>
      match b64Val a, b64Val b, b64Val c with
      | some va, some vb, some vc =>
          some [va * 4 + vb / 16, (vb % 16) * 16 + vc / 4]
      | _, _, _ => none
  | a :: b :: c :: d :: rest =>
      match b64Val a, b64Val b, b64Val c, b64Val d with
      | some va, some vb, some vc, some vd =>
          (b64Group rest).map
            (fun bs => (va * 4 + vb / 16) :: ((vb % 16) * 16 + vc / 4) ::
              ((vc % 4) * 64 + vd) :: bs)
      | _, _, _, _ => none
  | _ => none

/-- `base64.b64decode`: discard foreign characters, then decode quanta. -/
def b64DecodeBytes (s : List Char) : Option (List Nat) :=
  b64Group (s.filter (fun c => (b64Val c).isSome || c == '='))

/-- Is `b` a UTF-8 continuation byte? -/
def isContByte (b : Nat) : Bool := 128 ≤ b && b ≤ 191

/-- Strict UTF-8 decoding of a byte list (`bytes.decode('utf-8')`):
rejects overlong encodings, surrogates and out-of-range code points. -/
def utf8Decode : List Nat → Option (List Char)
  | [] => some []
  | b1 :: rest =>
    if b1 < 128 then
      (utf8Decode rest).map (fun cs => Char.ofNat b1 :: cs)
    else if b1 < 194 then none
    else if b1 ≤ 223 then
      match rest with
      | b2 :: rest2 =>
        if isContByte b2 then
          (utf8Decode rest2).map
            (fun cs => Char.ofNat ((b1 - 192) * 64 + (b2 - 128)) :: cs)
        else none
      | [] => none
    else if b1 ≤ 239 then
      match rest with
      | b2 :: b3 :: rest3 =>
        let cp := (b1 - 224) * 4096 + (b2 - 128) * 64 + (b3 - 128)
        if isContByte b2 && isContByte b3 && decide (2048 ≤ cp) &&
            !(decide (55296 ≤ cp) && decide (cp ≤ 57343)) then
          (utf8Decode rest3).map (fun cs => Char.ofNat cp :: cs)
        else none
      | _ => none
    else if b1 ≤ 244 then
      match rest with
      | b2 :: b3 :: b4 :: rest4 =>
        let cp := (b1 - 240) * 262144 + (b2 - 128) * 4096 +
          (b3 - 128) * 64 + (b4 - 128)
        if isContByte b2 && isContByte b3 && isContByte b4 &&
            decide (65536 ≤ cp) && decide (cp ≤ 1114111) then
          (utf8Decode rest4).map (fun cs => Char.ofNat cp :: cs)
        else none
      | _ => none
    else none

/-- The padding step of `decode_base64_url` (`utils.py`, lines 154-156):
extend to a multiple of 4 with `'='`. -/
def padB64 (encoded : String) : String :=
  let padding := 4 - encoded.length % 4
  if padding ≠ 4 then encoded ++ (⟨List.replicate padding '='⟩ : String)
  else encoded

/-- The `try`-block body `base64.b64decode(encoded).decode('utf-8')`:
`none` models either step raising. -/
def b64DecodeUtf8 (s : String) : Option String :=
  match b64DecodeBytes s.data with
  | none => none
  | some bytes =>
    match utf8Decode bytes with
    | none => none
    | some cs => some (⟨cs⟩ : String)

/-- `decode_base64_url` (`utils.py`, lines 151-159): pad, decode, and map
any failure of the `try` block to `""`. -/
def decode_base64_url (encoded : String) : String :=
  match b64DecodeUtf8 (padB64 encoded) with
  | some s => s
  | none => ""

/-! ## Site adapters — `scrapers/anime_scrapers.py`, `scrapers/movie_scrapers.py`

Each adapter's `search`/source method is embedded with its fetched, parsed
response as an explicit parameter (`none` for a failed fetch or non-200
status). -/

/-- A search result dict as built by the adapters (`id`, `title`, `url`,
`poster`, `type`, `source`, optional `year`). -/
structure SearchItem where
  id : String := ""
  title : String := ""
  url : String := ""
  poster : String := ""
  type : String := ""
  source : String := ""
  year : String := ""
deriving DecidableEq

/-- Characters after the last `'/'`: Python `s.split('/')[-1]`. -/
def lastSplitSlash (cs : List Char) : List Char :=
  cs.foldl (fun acc c => if c = '/' then [] else acc ++ [c]) []

/-- Python `s.split('/')[-1]` on strings. -/
def lastSlashComponent (s : String) : String := ⟨lastSplitSlash s.data⟩

/-- Modelled approximation of `urllib.parse.urljoin`, adequate for the
absolute and site-relative URLs the adapters produce: an absolute `rel`
wins, a scheme-relative `//…` URL gets `https:`, otherwise `rel` is joined
onto the base.  No theorem below depends on its exact value. -/
def urljoin (base rel : String) : String :=
  if rel = "" then base
  else if pyIn "://" rel then rel
  else if listPrefixOf "//".data rel.data then "https:" ++ rel
  else base ++ "/" ++ rel

/-- A parsed `<a>` element inside a Gogoanime result card: the optional
inner `<img>` (its `alt` and `src`), the link's own `title`, and `href`. -/
structure GogoLink where
  img : Option (String × String) := none
  title : String := ""
  href : String := ""
deriving DecidableEq

/-- A parsed Gogoanime search result card (one `div.img`). -/
structure GogoItem where
  link : Option GogoLink := none
deriving DecidableEq

/-- `GogoanimeScraper.search` (`anime_scrapers.py`, lines 22-56): a failed
fetch yields `[]`; otherwise the first `limit` cards are scanned, cards
without a link are skipped (`continue`), the title comes from the image
`alt` when an image exists and from the link `title` otherwise, and only
non-empty hrefs produce results. -/
def GogoanimeScraper.search (base_url site_name : String)
    (page : Option (List GogoItem)) (limit : Nat) : List SearchItem :=
  match page with
  | none => []
  | some items =>
      (items.take limit).filterMap (fun item =>
        match item.link with
        | none => none
        | some link =>
            if link.href ≠ "" then
              some { id := if pyIn "/" link.href then
                             lastSlashComponent link.href
                           else link.href
                     title := match link.img with
                       | some (alt, _) => alt
                       | none => link.title
                     url := urljoin base_url link.href
                     poster := match link.img with
                       | some (_, src) => src
                       | none => ""
                     type := "anime"
                     source := site_name }
            else none)

/-- One entry of the AnimeSama search API's JSON array. -/
structure SamaItem where
  url : String := ""
  title : String := ""
  image : String := ""
deriving DecidableEq

/-- `AnimeSamaScraper.search` (`anime_scrapers.py`, lines 535-556): a
non-200 response (`none`) yields `[]`; a 200 response's JSON array is
truncated to `limit` and mapped to result dicts. -/
def AnimeSamaScraper.search (base_url site_name : String)
    (resp : Option (List SamaItem)) (limit : Nat) : List SearchItem :=
  match resp with
  | none => []
  | some data =>
      (data.take limit).map (fun item =>
        { id := lastSlashComponent item.url
          title := item.title
          url := urljoin base_url item.url
          poster := item.image
          type := "anime"
          source := site_name })

/-- `ZoroScraper.get_episode_sources` (`anime_scrapers.py`, lines 368-398):
the nested fetch chain (server list, then one source request per server) is
made explicit as the list of `link` values those requests produced (`""`
when a request failed or the field was absent); empty links are skipped and
each kept link becomes a source whose `type` and `is_m3u8` are both derived
from whether `'.m3u8' in link`. -/
def ZoroScraper.get_episode_sources (base_url : String)
    (serverLinks : List String) : List VideoSource :=
  serverLinks.filterMap (fun link =>
    if link ≠ "" then
      some { url := link
             type := if pyIn ".m3u8" link then SourceType.hls
                     else SourceType.direct
             is_m3u8 := pyIn ".m3u8" link
             referer := base_url }
    else none)

/-- Python `VideoQuality(quality)` for the member values, `none` otherwise. -/
def videoQualityOfValue (s : String) : Option VideoQuality :=
  if s = "360p" then some .sd_360p
  else if s = "480p" then some .sd_480p
  else if s = "720p" then some .hd_720p
  else if s = "1080p" then some .hd_1080p
  else if s = "1440p" then some .fhd_1440p
  else if s = "4k" then some .uhd_4k
  else if s = "unknown" then some .unknown
  else none

/-- A stream entry of the LookMovie access API (its `url` and `quality`). -/
structure LMStream where
  url : String := ""
  quality : String := "unknown"
deriving DecidableEq

/-- `LookMovieScraper._get_lookmovie_sources` (`movie_scrapers.py`, lines
596-620) with the access-API response explicit: every stream with a
non-empty url becomes an HLS source with `is_m3u8 = True` unconditionally —
this method never inspects the url for a playlist pattern. -/
def LookMovieScraper.get_lookmovie_sources (base_url : String)
    (streams : List LMStream) : List VideoSource :=
  streams.filterMap (fun stream =>
    if stream.url ≠ "" then
      some { url := stream.url
             type := SourceType.hls
             quality := (videoQualityOfValue stream.quality).getD
               VideoQuality.unknown
             is_m3u8 := true
             referer := base_url }
    else none)

/-! ## Aggregation orchestrator — `main.py` -/

/-- The `ApiResponse` envelope (`main.py`, lines 96-100), with `data`
specialized to the search result list the search endpoints put there. -/
structure ApiResponse where
  success : Bool
  message : String := ""
  data : List SearchItem := []
  sources_used : List String := []
deriving DecidableEq

/-- `search_with_scraper` (`main.py`, lines 252-257): an adapter whose
`search` raises is converted to an empty list; `Except.error` models the
raised exception. -/
def search_with_scraper (outcome : Except Unit (List SearchItem)) :
    List SearchItem :=
  match outcome with
  | .ok r => r
  | .error _ => []

/-- The `item['source'] = name` tagging loop. -/
def tagSource (name : String) (items : List SearchItem) : List SearchItem :=
  items.map (fun item => { item with source := name })

/-- `search_content` (`main.py`, lines 214-278) after adapter selection: fan
out over the selected adapters (each paired with the outcome its `search`
call would produce), convert failures to `[]`, tag and concatenate the
per-adapter lists in adapter order — no ranking sort happens on this path —
record the adapters with a non-empty list in `sources_used`, and truncate
the concatenation to `limit`. -/
def search_content (q : String) (limit : Nat)
    (scrapers_to_use : List (String × Except Unit (List SearchItem))) :
    ApiResponse :=
  let handled := scrapers_to_use.map (fun p => (p.1, search_with_scraper p.2))
  let results := (handled.map (fun p => tagSource p.1 p.2)).flatten
  let sources_used := (handled.filter (fun p => !p.2.isEmpty)).map Prod.fst
  let truncated := results.take limit
  { success := truncated.length > 0
    message := if truncated.length > 0 then
                 toString truncated.length ++ " résultats trouvés"
               else "Aucun résultat"
    data := truncated
    sources_used := sources_used }

/-- `search_single` (`main.py`, lines 460-467): tag the results with the
adapter name on success, or report an empty list when `search` raised. -/
def search_single (name : String) (outcome : Except Unit (List SearchItem)) :
    String × List SearchItem :=
  match outcome with
  | .ok rs => (name, tagSource name rs)
  | .error _ => (name, [])

/-- The relevance sort key of `multi_search` (`main.py`, lines 479-483):
`(0 if query_lower in title.lower() else 1, title)`. -/
def rankKey (q : String) (item : SearchItem) : Nat × String :=
  (if pyIn (strLower q) (strLower item.title) then 0 else 1, item.title)

/-- Lexicographic comparison of the Python sort-key tuples: the order by
which `list.sort` arranges the merged results. -/
def rankLE (q : String) (a b : SearchItem) : Prop :=
  (rankKey q a).1 < (rankKey q b).1 ∨
    ((rankKey q a).1 = (rankKey q b).1 ∧ (rankKey q a).2 ≤ (rankKey q b).2)

instance rankLE.decRel (q : String) : DecidableRel (rankLE q) := fun a b => by
  unfold rankLE; infer_instance

instance rankLE.total (q : String) : IsTotal SearchItem (rankLE q) where
  total a b := by
    rcases Nat.lt_trichotomy (rankKey q a).1 (rankKey q b).1 with h | h | h
    · exact Or.inl (Or.inl h)
    · rcases le_total (rankKey q a).2 (rankKey q b).2 with hs | hs
      · exact Or.inl (Or.inr ⟨h, hs⟩)
      · exact Or.inr (Or.inr ⟨h.symm, hs⟩)
    · exact Or.inr (Or.inl h)

instance rankLE.trans (q : String) : IsTrans SearchItem (rankLE q) where
  trans a b c hab hbc := by
    rcases hab with h1 | ⟨h1, h1s⟩ <;> rcases hbc with h2 | ⟨h2, h2s⟩
    · exact Or.inl (h1.trans h2)
    · exact Or.inl (h2 ▸ h1)
    · exact Or.inl (h1 ▸ h2)
    · exact Or.inr ⟨h1.trans h2, le_trans h1s h2s⟩

/-- The merged tagged results of `multi_search` before ranking: the
concatenation of the non-empty per-adapter tagged lists
(`all_results.extend(result_list)` over the kept adapters). -/
def mergedKept (adapters : List (String × Except Unit (List SearchItem))) :
    List SearchItem :=
  (((adapters.map (fun p => search_single p.1 p.2)).filter
    (fun p => !p.2.isEmpty)).map Prod.snd).flatten

/-- `multi_search` (`main.py`, lines 447-490): fan out over all adapters,
keep the non-empty tagged lists and their names, sort the concatenation by
the relevance key — Python's `list.sort` is a stable sort, modelled here by
the stable insertion sort, which coincides with every stable sort for this
total transitive comparison — and truncate the ranked list to `limit * 3`. -/
def multi_search (q : String) (limit : Nat)
    (adapters : List (String × Except Unit (List SearchItem))) : ApiResponse :=
  let results := adapters.map (fun p => search_single p.1 p.2)
  let kept := results.filter (fun p => !p.2.isEmpty)
  let all_results := (kept.map Prod.snd).flatten
  let sources_used := kept.map Prod.fst
  let ranked := List.insertionSort (rankLE q) all_results
  { success := all_results.length > 0
    message := toString all_results.length ++ " résultats de " ++
      toString sources_used.length ++ " sources"
    data := ranked.take (limit * 3)
    sources_used := sources_used }

/-! ## Concrete inputs used by witnesses and counterexamples -/

/-- A concrete tagged search item for the C1 witness. -/
def c1ItemA : SearchItem := { id := "n1", title := "Naruto" }

/-- A second concrete search item for the C1 witness. -/
def c1ItemB : SearchItem := { id := "n2", title := "Naruto Shippuden" }

/-- Candidate titled "Zed" (does not contain the query "matrix"). -/
def c2Zed : SearchItem := { id := "z", title := "Zed" }

/-- Candidate titled "The Matrix" (contains the query "matrix"). -/
def c2Matrix : SearchItem := { id := "m", title := "The Matrix" }

/-- Two fixture adapters delivering 10 merged candidates in total. -/
def c8Adapters : List (String × Except Unit (List SearchItem)) :=
  [("a", Except.ok (List.replicate 5 { title := "Film A" })),
   ("b", Except.ok (List.replicate 5 { title := "Film B" }))]

/-- A concrete season with two episodes and a stale declared count of 99. -/
def c3Season : Season :=
  { number := 1
    title := "Season 1"
    id := "s1"
    episodes :=
      [{ number := 1, title := "Episode 1", id := "e1" },
       { number := 2, title := "Episode 2", id := "e2" }]
    episode_count := 99 }

/-- A concrete details record with no episodes and a declared count of 7. -/
def c3Result : ScraperResult :=
  { title := "Some Show", id := "x1", type := "anime", episode_count := 7 }

/-- The source Zoro builds from an `.m3u8` link (used by the C5 witness). -/
def c5ZoroSrc : VideoSource :=
  { url := "https://cdn.example/master.m3u8"
    type := SourceType.hls
    is_m3u8 := true
    referer := "https://aniwatch.to" }

/-- The source LookMovie builds from a 720p stream (used by the C5 witness). -/
def c5LMSrc : VideoSource :=
  { url := "https://streams.example/alt"
    type := SourceType.hls
    quality := VideoQuality.hd_720p
    is_m3u8 := true
    referer := "https://lookmovie2.to" }

/-! ## Theorems for claim C3 -/

/-- C3: For every Season (and every ContentDetails/ScraperResult), the
serialized `episode_count` equals `len(episodes)` whenever the episodes list
is non-empty, and equals the separately declared count field whenever the
episodes list is empty — never a mix of both. -/
theorem c3_episode_count_serialized (s : Season) (r : ScraperResult) :
    (s.episodes ≠ [] → (Season.to_dict s).episode_count = s.episodes.length) ∧
    (s.episodes = [] → (Season.to_dict s).episode_count = s.episode_count) ∧
    (r.episodes ≠ [] →
      (ScraperResult.to_dict r).episode_count = r.episodes.length) ∧
    (r.episodes = [] →
      (ScraperResult.to_dict r).episode_count = r.episode_count) := by
  refine ⟨fun h => ?_, fun h => ?_, fun h => ?_, fun h => ?_⟩
  · have hlen : s.episodes.length ≠ 0 := by
      simpa [List.length_eq_zero] using h
    simp [Season.to_dict, pyOrNat, hlen]
  · simp [Season.to_dict, pyOrNat, h]
  · simp [ScraperResult.to_dict, h]
  · simp [ScraperResult.to_dict, h]

/-- Witness for C3: evaluated on `c3Season` (non-empty episodes, serialized
count 2 = len) and `c3Result` (empty episodes, serialized count 7 = declared). -/
theorem c3_episode_count_serialized_witness :
    (Season.to_dict c3Season).episode_count = 2 ∧
    (ScraperResult.to_dict c3Result).episode_count = 7 := by
  have h := c3_episode_count_serialized c3Season c3Result
  exact ⟨by rw [h.1 (by decide)]; decide, by rw [h.2.2.2 (by decide)]; decide⟩

/-! ## Theorems for claim C4 -/

/-- C4 counterexample: 204 is in the 2xx range, yet `fetch_page` returns the
typed failure (`None`) instead of the body — the code tests `status == 200`,
not membership in 2xx. -/
theorem c4_2xx_body_not_returned_cex :
    (200 ≤ 204 ∧ 204 < 300) ∧
    fetch_page (FetchOutcome.resp 204 "No Content") FetchOutcome.exc = none :=
  ⟨by decide, rfl⟩

/-- C4 amended: `fetch_page` returns the raw body exactly when the status is
200 (not the whole 2xx range); any other status yields `None` directly, an
exception on the async attempt falls back to `fetch_page_sync`, which again
returns the body iff its status is 200 and `None` on its own exception.  Both
functions are total (`Option`-valued), so no fault escapes to the caller. -/
theorem c4_fetch_page_only_200 (st : Nat) (b : String) (f : FetchOutcome) :
    (fetch_page (FetchOutcome.resp st b) f = some b ↔ st = 200) ∧
    (fetch_page (FetchOutcome.resp st b) f = none ↔ st ≠ 200) ∧
    fetch_page FetchOutcome.exc f = fetch_page_sync f ∧
    (fetch_page_sync (FetchOutcome.resp st b) = some b ↔ st = 200) ∧
    (fetch_page_sync (FetchOutcome.resp st b) = none ↔ st ≠ 200) ∧
    fetch_page_sync FetchOutcome.exc = none := by
  refine ⟨?_, ?_, rfl, ?_, ?_, rfl⟩ <;>
    by_cases h : st = 200 <;> simp [fetch_page, fetch_page_sync, h]

/-! ## Theorems for claims C6 and C9 -/

/-- The registry loop returns `None` iff no entry's pattern matches. -/
theorem extractFromPatterns_eq_none_iff (url : String) :
    ∀ ps : List (String × List PatTok),
      extractFromPatterns ps url = none ↔
        ∀ hp ∈ ps, searchPat hp.2 url.data = none := by
  intro ps
  induction ps with
  | nil => simp [extractFromPatterns]
  | cons hd tl ih =>
    obtain ⟨host, pat⟩ := hd
    cases hsp : searchPat pat url.data with
    | some caps => simp [extractFromPatterns, hsp]
    | none => simp [extractFromPatterns, hsp, ih]

/-- Entries whose pattern does not match are skipped by the registry loop. -/
theorem extractFromPatterns_skip (url : String) :
    ∀ pre rest, (∀ e ∈ pre, searchPat e.2 url.data = none) →
      extractFromPatterns (pre ++ rest) url = extractFromPatterns rest url := by
  intro pre
  induction pre with
  | nil => intro rest _; rfl
  | cons hd tl ih =>
    intro rest h
    obtain ⟨host, pat⟩ := hd
    have hhd : searchPat pat url.data = none := h (host, pat) (by simp)
    have htl : ∀ e ∈ tl, searchPat e.2 url.data = none :=
      fun e he => h e (by simp [he])
    simp [extractFromPatterns, hhd, ih rest htl]

/-- C6 amended: when no registry pattern matches, `extract_video_url`
returns `None` (not a generic "iframe" classification — that default lives in
the adapters, not here); when patterns do match, the first matching entry of
the ordered registry wins and supplies the host and captured video id. -/
theorem c6_first_match_wins_or_none (url : String) :
    (extract_video_url url = none ↔
      ∀ hp ∈ embedPatterns, searchPat hp.2 url.data = none) ∧
    (∀ pre hp post, embedPatterns = pre ++ hp :: post →
      (∀ e ∈ pre, searchPat e.2 url.data = none) →
      ∀ caps, searchPat hp.2 url.data = some caps →
      extract_video_url url =
        some { host := hp.1, video_id := caps.headD "",
               embed_url := url, direct_url := none }) := by
  constructor
  · exact extractFromPatterns_eq_none_iff url embedPatterns
  · intro pre hp post heq hpre caps hcaps
    obtain ⟨host, pat⟩ := hp
    unfold extract_video_url
    rw [heq, extractFromPatterns_skip url pre _ hpre]
    simp [extractFromPatterns, hcaps]

/-- C6 counterexample: an embed URL matching no registry entry classifies to
`None` — no result — not to a generic "iframe" classification. -/
theorem c6_no_match_returns_none_cex :
    extract_video_url "https://example.com/watch?v=abc" = none := by decide

/-- Witness for C6: the doodstream URL is matched by the second registry
entry after the non-matching streamtape entry is skipped. -/
theorem c6_first_match_wins_or_none_witness :
    extract_video_url "https://dood.to/e/vid42" =
      some { host := "doodstream", video_id := "vid42",
             embed_url := "https://dood.to/e/vid42", direct_url := none } := by
  have h := (c6_first_match_wins_or_none "https://dood.to/e/vid42").2
    [("streamtape", [.lit "streamtape.com/e/", .plusWord])]
    ("doodstream", [.lit "dood.", .plusNonSlash, .lit "/e/", .plusWord])
    [("mixdrop", [.lit "mixdrop.", .plusNonSlash, .lit "/e/", .plusWord]),
     ("upstream", [.lit "upstream.to/e/", .plusWord]),
     ("vidcloud", [.lit "vidcloud.", .plusNonSlash, .lit "/e/", .plusWord]),
     ("mp4upload", [.lit "mp4upload.com/embed-", .plusWord]),
     ("yourupload", [.lit "yourupload.com/embed/", .plusWord]),
     ("sbembed", [.lit "sbembed.com/embed/", .plusWord]),
     ("filemoon", [.lit "filemoon.sx/e/", .plusWord]),
     ("voe", [.lit "voe.sx/e/", .plusWord])]
    rfl (by decide) ["vid42"] (by decide)
  simpa using h

/-- C9: `https://mixdrop.co/e/abc123` classifies as host "mixdrop" with
video id "abc123". -/
theorem c9_mixdrop_classifies :
    extract_video_url "https://mixdrop.co/e/abc123" =
      some { host := "mixdrop", video_id := "abc123",
             embed_url := "https://mixdrop.co/e/abc123",
             direct_url := none } := by decide

/-! ## Theorems for claim C10 -/

/-- C10: `decode_base64_url` is total by construction (a Lean function into
`String`; every Python exception path is an explicit `Option` branch).  The
input is padded with `'='` to a multiple of 4 before decoding; whenever the
decode of the padded input fails (not valid base64-encoded UTF-8) the result
is the empty string, and whenever it succeeds the decoded text is returned. -/
theorem c10_decode_base64_url_total (s : String) :
    (padB64 s).length % 4 = 0 ∧
    (b64DecodeUtf8 (padB64 s) = none → decode_base64_url s = "") ∧
    (∀ r, b64DecodeUtf8 (padB64 s) = some r → decode_base64_url s = r) := by
  refine ⟨?_, ?_, ?_⟩
  · have hm : s.length % 4 < 4 := Nat.mod_lt _ (by norm_num)
    simp only [padB64]
    split
    · rename_i hne
      rw [String.length_append]
      have hrep : (⟨List.replicate (4 - s.length % 4) '='⟩ : String).length
          = 4 - s.length % 4 := by
        show (List.replicate (4 - s.length % 4) '=').length = 4 - s.length % 4
        exact List.length_replicate _ _
      rw [hrep]
      omega
    · rename_i hne
      simp only [ne_eq, not_not] at hne
      omega
  · intro h; simp [decode_base64_url, h]
  · intro r h; simp [decode_base64_url, h]

/-- Witness for C10: a successful decode ("aGVsbG8" is padded to "aGVsbG8="
and decodes to "hello") and a failing decode ("%%%" cleans to no base64 data
and yields the empty string). -/
theorem c10_decode_base64_url_total_witness :
    decode_base64_url "aGVsbG8" = "hello" ∧ decode_base64_url "%%%" = "" :=
  ⟨(c10_decode_base64_url_total "aGVsbG8").2.2 "hello" (by decide),
   (c10_decode_base64_url_total "%%%").2.1 (by decide)⟩

/-! ## Theorems for claim C1 -/

/-- Every id in `sources_used` is the name of a selected adapter. -/
theorem sources_used_subset_names (q : String) (limit : Nat)
    (adapters : List (String × Except Unit (List SearchItem))) :
    ∀ x ∈ (search_content q limit adapters).sources_used,
      x ∈ adapters.map Prod.fst := by
  intro x hx
  simp only [search_content, List.mem_map, List.mem_filter] at hx
  obtain ⟨p, ⟨hpmem, _⟩, rfl⟩ := hx
  obtain ⟨a, hamem, rfl⟩ := hpmem
  exact List.mem_map.mpr ⟨a, hamem, rfl⟩

/-- C1: in the `search_content` fan-out, an adapter whose `search` raises
contributes zero results and does not make the aggregate fail — inserting a
failing adapter anywhere among the selected adapters leaves the whole
response (merged results of the non-failing adapters, `sources_used`,
success flag, message) unchanged; and if its name is not one of the other
adapters it never appears in `sources_used`. -/
theorem c1_failing_adapter_isolated (q : String) (limit : Nat) (name : String)
    (pre post : List (String × Except Unit (List SearchItem))) :
    search_content q limit (pre ++ (name, Except.error ()) :: post) =
      search_content q limit (pre ++ post) ∧
    ((∀ p ∈ pre ++ post, p.1 ≠ name) →
      name ∉ (search_content q limit
        (pre ++ (name, Except.error ()) :: post)).sources_used) := by
  have hEq : search_content q limit (pre ++ (name, Except.error ()) :: post) =
      search_content q limit (pre ++ post) := by
    simp [search_content, search_with_scraper, tagSource]
  refine ⟨hEq, fun hfresh hmem => ?_⟩
  rw [hEq] at hmem
  have hsub := sources_used_subset_names q limit (pre ++ post) name hmem
  obtain ⟨p, hp, heq⟩ := List.mem_map.mp hsub
  exact absurd heq (hfresh p hp)

/-- Witness for C1: three fixture adapters, the middle one always failing;
the response equals the one computed without it, and "zoro" is absent from
`sources_used`. -/
theorem c1_failing_adapter_isolated_witness :
    search_content "naruto" 10
        [("gogoanime", Except.ok [c1ItemA]), ("zoro", Except.error ()),
         ("sflix", Except.ok [c1ItemB])] =
      search_content "naruto" 10
        [("gogoanime", Except.ok [c1ItemA]), ("sflix", Except.ok [c1ItemB])] ∧
    "zoro" ∉ (search_content "naruto" 10
        [("gogoanime", Except.ok [c1ItemA]), ("zoro", Except.error ()),
         ("sflix", Except.ok [c1ItemB])]).sources_used := by
  have h := c1_failing_adapter_isolated "naruto" 10 "zoro"
    [("gogoanime", Except.ok [c1ItemA])] [("sflix", Except.ok [c1ItemB])]
  exact ⟨h.1, h.2 (by decide)⟩

/-! ## Theorems for claim C2 -/

/-- C2 counterexample: the plain aggregated search (`search_content`, the
`/api/search` fan-out) does NOT sort the merged sequence before truncation:
with query "matrix" and the candidates "Zed" (first adapter) and
"The Matrix" (second adapter), the returned data keeps adapter order with
"Zed" first, although the ranking comparator does not allow "Zed" (a
non-matching title) before "The Matrix" (a matching title). -/
theorem c2_search_content_not_ranked_cex :
    (search_content "matrix" 10
        [("a", Except.ok [c2Zed]), ("b", Except.ok [c2Matrix])]).data =
      [{ c2Zed with source := "a" }, { c2Matrix with source := "b" }] ∧
    ¬ rankLE "matrix" { c2Zed with source := "a" }
        { c2Matrix with source := "b" } := by
  exact ⟨by decide, by decide⟩

/-- C2 amended: only the broad multi-source mode ranks — `multi_search`
stably sorts the merged tagged results by (title-contains-query
case-insensitively: match before no-match, then title order) before
truncating to `3 * limit`, so its output is a sorted prefix of a
permutation of the merge, and querying "matrix" over candidates "Zed" and
"The Matrix" places "The Matrix" first; `search_content` instead returns
the merge in adapter order (see the counterexample). -/
theorem c2_multi_search_ranked (q : String) (limit : Nat)
    (adapters : List (String × Except Unit (List SearchItem))) :
    List.Sorted (rankLE q) (multi_search q limit adapters).data ∧
    (∃ ranked, ranked.Perm (mergedKept adapters) ∧
      List.Sorted (rankLE q) ranked ∧
      (multi_search q limit adapters).data = ranked.take (limit * 3)) ∧
    (multi_search "matrix" 5
        [("fix", Except.ok [c2Zed, c2Matrix])]).data.map SearchItem.title =
      ["The Matrix", "Zed"] := by
  refine ⟨?_,
    ⟨List.insertionSort (rankLE q) (mergedKept adapters),
      List.perm_insertionSort (rankLE q) (mergedKept adapters),
      List.sorted_insertionSort (rankLE q) (mergedKept adapters), rfl⟩,
    by decide⟩
  exact List.Pairwise.sublist (List.take_sublist _ _)
    (List.sorted_insertionSort (rankLE q) (mergedKept adapters))

/-! ## Theorems for claim C5 -/

/-- C5 counterexample: `_get_lookmovie_sources` marks every stream as a
playlist: a stream whose url does not contain ".m3u8" still comes out with
`is_m3u8 = True`, so the claimed iff fails on a LookMovie source. -/
theorem c5_lookmovie_always_m3u8_cex :
    (LookMovieScraper.get_lookmovie_sources "https://lookmovie2.to"
        [{ url := "https://streams.example/master", quality := "1080p" }]).map
      (fun src => (src.is_m3u8, pyIn ".m3u8" src.url)) = [(true, false)] := by
  decide

/-- C5 amended: sources built by `ZoroScraper.get_episode_sources` satisfy
the invariant (`is_m3u8` iff the url contains ".m3u8"), but sources built by
`LookMovieScraper._get_lookmovie_sources` carry `is_m3u8 = True`
unconditionally, whether or not the url matches the playlist pattern. -/
theorem c5_is_m3u8_flag (base : String) (links : List String)
    (streams : List LMStream) :
    (∀ src ∈ ZoroScraper.get_episode_sources base links,
      src.is_m3u8 = pyIn ".m3u8" src.url) ∧
    (∀ src ∈ LookMovieScraper.get_lookmovie_sources base streams,
      src.is_m3u8 = true) := by
  constructor
  · intro src hsrc
    simp only [ZoroScraper.get_episode_sources, List.mem_filterMap] at hsrc
    obtain ⟨link, _, hlink⟩ := hsrc
    rcases eq_or_ne link "" with h | h
    · simp [h] at hlink
    · rw [if_pos h] at hlink
      obtain rfl := Option.some.inj hlink
      rfl
  · intro src hsrc
    simp only [LookMovieScraper.get_lookmovie_sources,
      List.mem_filterMap] at hsrc
    obtain ⟨stream, _, hstream⟩ := hsrc
    rcases eq_or_ne stream.url "" with h | h
    · simp [h] at hstream
    · rw [if_pos h] at hstream
      obtain rfl := Option.some.inj hstream
      rfl

/-- Witness for C5: a Zoro source built from an `.m3u8` link satisfies the
iff, and a LookMovie source built from a pattern-free stream url still has
`is_m3u8 = true`. -/
theorem c5_is_m3u8_flag_witness :
    c5ZoroSrc.is_m3u8 = pyIn ".m3u8" c5ZoroSrc.url ∧ c5LMSrc.is_m3u8 = true :=
  ⟨(c5_is_m3u8_flag "https://aniwatch.to"
      ["https://cdn.example/master.m3u8"] []).1 c5ZoroSrc (by decide),
   (c5_is_m3u8_flag "https://lookmovie2.to" []
      [{ url := "https://streams.example/alt", quality := "720p" }]).2
     c5LMSrc (by decide)⟩

/-! ## Theorems for claim C7 -/

/-- C7: for the adapters, `search` over a response containing no matching
items returns the empty list — both when the fetch produced a page with no
result items and when the fetch itself failed (the code path that returns
`[]` rather than raising or returning an absent value). -/
theorem c7_empty_search_returns_empty_list (base site : String) (limit : Nat) :
    GogoanimeScraper.search base site (some []) limit = [] ∧
    GogoanimeScraper.search base site none limit = [] ∧
    AnimeSamaScraper.search base site (some []) limit = [] ∧
    AnimeSamaScraper.search base site none limit = [] := by
  refine ⟨?_, rfl, ?_, rfl⟩ <;>
    simp [GogoanimeScraper.search, AnimeSamaScraper.search]

/-! ## Theorems for claim C8 -/

/-- C8: the merged search result sequence is capped to the requested limit
(`search_content` truncates to `limit`; with limit 3 over 10 merged fixture
candidates exactly 3 items come back), and the broad multi-source mode caps
at the fixed multiple `3 * limit`. -/
theorem c8_limit_caps_results (q : String) (limit : Nat)
    (adapters : List (String × Except Unit (List SearchItem))) :
    (search_content q limit adapters).data.length ≤ limit ∧
    (multi_search q limit adapters).data.length ≤ limit * 3 ∧
    (search_content "matrix" 3 c8Adapters).data.length = 3 := by
  refine ⟨?_, ?_, by decide⟩
  · simp only [search_content, List.length_take]
    exact Nat.min_le_left _ _
  · simp only [multi_search, List.length_take]
    exact Nat.min_le_left _ _

end Scraper
